import Mathlib

/-!
Shallow embedding of the DataSetIQ Google Sheets add-on core
(src/src/Code.ts) and proofs about its fetch, retry, normalization,
error-translation and table-building logic.

The TypeScript file holds two variants of the add-on separated by a
document marker: an older variant (series endpoint with meta and
pair-list observations) and a newer variant (series data endpoint with
object-list observations).  The claims target the newer variant; the
older one is embedded only where the two normalizers are compared.

Host-environment primitives (JSON.parse, Number, Date.parse, Date.now,
encodeURIComponent, new Date(s).getTime()) are modelled as explicit
parameters collected in the JsEnv structure: the embedding quantifies
over their behaviour instead of re-implementing the JavaScript runtime.
-/

namespace DataSetIQ

def BASE_URL : String := "https://datasetiq.com"

def SERIES_PATH : String := "/api/public/series/"

def SERIES_DATA_PATH : String := "/data"

/-- A cell of a returned spreadsheet grid: values are strings or numbers. -/
inductive Cell where
  | str (s : String)
  | num (n : Int)
deriving DecidableEq, Repr

def HEADER_ROW : List Cell := [Cell.str "Date", Cell.str "Value"]

/-- The standardized provider error codes (plus UNKNOWN, which is never
matched by mapError and therefore falls through to the status checks). -/
inductive ErrorCode where
  | NO_KEY
  | INVALID_KEY
  | REVOKED_KEY
  | FREE_LIMIT
  | QUOTA_EXCEEDED
  | PLAN_REQUIRED
  | UNKNOWN
deriving DecidableEq, Repr

structure ProviderError where
  code : Option ErrorCode := none
  message : Option String := none
deriving DecidableEq, Repr

/-- One observation in the newer upstream shape: an object with date and
value fields. -/
structure Obs where
  date : String
  value : Int
deriving DecidableEq, Repr

/-- Opaque dataset / metadata container: a mapping from field names to
values, modelled as an association list. -/
abbrev Dataset := List (String × String)

/-- Parsed JSON body of a response from the newer series endpoints
(interface SeriesResponse of the newer variant).  A missing field of the
parsed object is none. -/
structure SeriesBody where
  seriesId : Option String := none
  data : Option (List Obs) := none
  dataset : Option Dataset := none
  scalar : Option Int := none
  error : Option ProviderError := none
  message : Option String := none
  status : Option String := none
deriving DecidableEq, Repr

/-- The empty object produced by parseJson on a malformed body. -/
def emptyBody : SeriesBody := {}

/-- Internal normalized result: observations in pair-list form, as built
by the success path of the newer fetchSeries. -/
structure SeriesResult where
  data : Option (List (String × Int)) := none
  dataset : Option Dataset := none
  scalar : Option Int := none
  seriesId : Option String := none
  status : Option String := none
  message : Option String := none
deriving DecidableEq, Repr

/-- mapError of Code.ts: fixed priority chain from provider error code,
then HTTP status, then the provider fallback message. -/
def mapError (code : Option ErrorCode) (status : Nat) (fallback : Option String) : String :=
  if code = some ErrorCode.NO_KEY then "Please open DataSetIQ sidebar to connect."
  else if code = some ErrorCode.INVALID_KEY then
    "Invalid API Key. Reconnect at datasetiq.com/dashboard/api-keys"
  else if code = some ErrorCode.REVOKED_KEY then
    "API Key revoked. Get a new key at datasetiq.com/dashboard/api-keys"
  else if code = some ErrorCode.FREE_LIMIT then
    "Free plan limit reached. Upgrade at datasetiq.com/pricing"
  else if code = some ErrorCode.QUOTA_EXCEEDED then
    "Daily Quota Exceeded. Upgrade at datasetiq.com/pricing"
  else if code = some ErrorCode.PLAN_REQUIRED then
    "Upgrade required. Visit datasetiq.com/pricing"
  else if status = 429 then "Rate limited. Please retry shortly."
  else if 500 ≤ status then "Server unavailable. Please retry."
  else fallback.getD "Unable to fetch data."

/-- Host-environment primitives used by the core, passed explicitly.
jsonParse is JSON.parse returning none on a syntax error; parseNumber is
Number(s) returning none when the result is NaN; parseDateMs is
Date.parse(s) in milliseconds returning none when NaN; nowMs is
Date.now(); encodeURIComponent is percent-encoding; getTimeMs is
new Date(s).getTime(), idealized as total on the modelled inputs; trim
is String.prototype.trim. -/
structure JsEnv where
  jsonParse : String → Option SeriesBody
  parseNumber : String → Option Int
  parseDateMs : String → Option Int
  nowMs : Int
  encodeURIComponent : String → String
  getTimeMs : String → Int
  trim : String → String

/-- parseJson of Code.ts: JSON.parse, with a malformed body degrading to
the empty object. -/
def parseJson (env : JsEnv) (body : String) : SeriesBody :=
  (env.jsonParse body).getD emptyBody

/-- normalizeHeaders of Code.ts: lowercases every header name. -/
def normalizeHeaders (headers : List (String × String)) : List (String × String) :=
  headers.map (fun kv => (kv.1.toLower, kv.2))

/-- Building a JavaScript record by successive assignment: a later entry
with the same key overwrites an earlier one. -/
def recordOf (l : List (String × String)) : String → Option String :=
  l.foldl (fun acc kv => fun k => if k = kv.1 then some kv.2 else acc k) (fun _ => none)

/-- computeRetryAfter of Code.ts.  The retry-after header value is
subject to the JavaScript truthiness check, so an empty-string header
behaves as an absent one. -/
def computeRetryAfter (env : JsEnv) (headers : String → Option String) (attempt : Nat) : Int :=
  match headers "retry-after" with
  | some retryAfter =>
    if retryAfter ≠ "" then
      match env.parseNumber retryAfter with
      | some n => n * 1000
      | none =>
        match env.parseDateMs retryAfter with
        | some parsed =>
          let diff := parsed - env.nowMs
          if 0 < diff then diff else 500 * 2 ^ attempt
        | none => 500 * 2 ^ attempt
    else 500 * 2 ^ attempt
  | none => 500 * 2 ^ attempt

/-- Success-path response transformation of the newer fetchSeries
(lines 1096-1122 of Code.ts): reshapes the object-list body into the
internal pair-list result and derives the scalar for latest and value
modes.  The length checks of the source are expressed through getLast?
and head?, which are some exactly when the list is non-empty. -/
def transformResponse (mode : String) (body : SeriesBody) : SeriesResult :=
  if mode = "meta" ∧ body.dataset.isSome then
    { dataset := body.dataset }
  else
    match body.data with
    | some l =>
      let dataArray : List (String × Int) := l.map (fun o => (o.date, o.value))
      let scalar : Option Int :=
        if mode = "latest" then dataArray.getLast?.map (fun p => p.2)
        else if mode = "value" then dataArray.head?.map (fun p => p.2)
        else none
      { data := some dataArray, seriesId := body.seriesId,
        status := body.status, message := body.message, scalar := scalar }
    | none =>
      { data := none, dataset := body.dataset, scalar := body.scalar,
        seriesId := body.seriesId, status := body.status, message := body.message }

/-- A response as seen by the client: HTTP status, raw body text and raw
headers. -/
structure HttpResponse where
  status : Nat
  bodyText : String
  headers : List (String × String)
deriving DecidableEq, Repr

/-- The request parts built by the newer fetchSeries before the loop:
the URL, the query parameters pushed into the params array, and the
request headers. -/
structure SeriesRequestParts where
  url : String
  params : List String
  headers : List (String × String)
deriving DecidableEq, Repr

/-- Options bag of fetchSeries.  The newer variant reads only mode,
start and date from it (freq is carried but unused). -/
structure FetchOptions where
  mode : String
  freq : Option String := none
  start : Option String := none
  date : Option String := none
deriving DecidableEq, Repr

/-- URL and header construction of the newer fetchSeries
(lines 1062-1086 of Code.ts): metadata mode targets the series resource
itself, every other mode targets its data endpoint with optional start
and end parameters plus a credential-dependent limit. -/
def buildSeriesRequest (enc : String → String) (key : Option String)
    (seriesId : String) (options : FetchOptions) : SeriesRequestParts :=
  let headers : List (String × String) :=
    match key with
    | some k => [("Authorization", "Bearer " ++ k)]
    | none => []
  let base := BASE_URL ++ SERIES_PATH ++ enc seriesId
  if options.mode = "meta" then
    { url := base, params := [], headers := headers }
  else
    let params : List String :=
      (match options.start with
       | some s => ["start=" ++ enc s]
       | none => [])
      ++ (match options.date with
          | some d => ["end=" ++ enc d]
          | none => [])
      ++ ["limit=" ++ (if key.isSome then "1000" else "100")]
    { url := base ++ SERIES_DATA_PATH ++
        (if 0 < params.length then "?" ++ String.intercalate "&" params else ""),
      params := params, headers := headers }

/-- Success classification of one response inside the fetch loop:
2xx status and no top-level error object in the parsed body. -/
abbrev isSuccess (status : Nat) (body : SeriesBody) : Prop :=
  200 ≤ status ∧ status < 300 ∧ body.error = none

/-- Transient-failure classification: HTTP 429 or any 5xx. -/
abbrev isRetryable (status : Nat) : Prop :=
  status = 429 ∨ 500 ≤ status

/-- Outcome of one fetchSeries call: at most one of response and
errorMessage is some; calls counts outbound HTTP calls; sleeps records
the delays passed to Utilities.sleep on the retry path. -/
structure FetchOutcome where
  response : Option SeriesResult := none
  errorMessage : Option String := none
  calls : Nat := 0
  sleeps : List Int := []
  request : Option SeriesRequestParts := none
deriving DecidableEq, Repr

/-- Body of the while loop of the newer fetchSeries, recursing on the
remaining iteration budget (the source guard is attempt < 2, so the
budget is 2 - attempt).  The network is modelled as a function giving
the response to the i-th outbound call. -/
def fetchGo (env : JsEnv) (mode : String) (responses : Nat → HttpResponse) :
    Nat → Nat → FetchOutcome
  | _, 0 =>
    { errorMessage := some "Unable to reach DataSetIQ. Please try again." }
  | attempt, remaining + 1 =>
    let r := responses attempt
    let body := parseJson env r.bodyText
    if isSuccess r.status body then
      { response := some (transformResponse mode body), calls := 1 }
    else if attempt = 0 ∧ isRetryable r.status then
      let delay := computeRetryAfter env (recordOf (normalizeHeaders r.headers)) attempt
      let rest := fetchGo env mode responses (attempt + 1) remaining
      { rest with calls := rest.calls + 1, sleeps := delay :: rest.sleeps }
    else
      { errorMessage := some (mapError (body.error.bind (fun e => e.code)) r.status
          (body.error.bind (fun e => e.message))),
        calls := 1 }

/-- The newer fetchSeries (lines 1058-1139 of Code.ts): build the
request, then run the loop starting at attempt 0 with guard
attempt < 2. -/
def fetchSeries (env : JsEnv) (key : Option String) (seriesId : String)
    (options : FetchOptions) (responses : Nat → HttpResponse) : FetchOutcome :=
  let req := buildSeriesRequest env.encodeURIComponent key seriesId options
  { fetchGo env options.mode responses 0 2 with request := some req }

/-- normalizeOptionalString of Code.ts restricted to string-or-absent
inputs: null and undefined map to absent, a string is trimmed and an
empty trim result is absent.  (The coercion branch for non-string,
non-null values is outside the modelled input space.) -/
def normalizeOptionalString (env : JsEnv) (value : Option String) : Option String :=
  match value with
  | none => none
  | some s =>
    let trimmed := env.trim s
    if trimmed.length ≠ 0 then some trimmed else none

/-- normalizeSeriesId of Code.ts: a missing or empty-after-trim series
id is an error. -/
def normalizeSeriesId (env : JsEnv) (seriesId : Option String) : Except String String :=
  match normalizeOptionalString env seriesId with
  | some normalized => Except.ok normalized
  | none => Except.error "series_id is required."

/-- normalizeDateInput of Code.ts restricted to string-or-absent inputs:
null, undefined and the empty string map to absent, any other string is
passed through unmodified.  (The native-Date branch, which formats
through the host, is outside the modelled input space.) -/
def normalizeDateInput (value : Option String) : Option String :=
  match value with
  | none => none
  | some s => if s = "" then none else some s

/-- handleScalar of Code.ts: normalize the id, fetch, raise the error
message when present, raise a fixed message when the scalar is absent,
otherwise return the scalar. -/
def handleScalar (env : JsEnv) (key : Option String) (seriesId : Option String)
    (opts : FetchOptions) (responses : Nat → HttpResponse) : Except String Int :=
  match normalizeSeriesId env seriesId with
  | Except.error e => Except.error e
  | Except.ok series =>
    let out := fetchSeries env key series opts responses
    match out.errorMessage with
    | some m => Except.error m
    | none =>
      match out.response.bind (fun r => r.scalar) with
      | some v => Except.ok v
      | none => Except.error "Value not available."

/-- Bool comparator induced by the sort callback of buildArrayResult:
the callback returns getTime(b) - getTime(a), so a is kept no later
than b exactly when the parsed date of b is at most that of a. -/
def dateDesc (getTime : String → Int) (a b : String × Int) : Bool :=
  decide (getTime b.1 ≤ getTime a.1)

/-- One observation pair rendered as a grid row. -/
def obsRow (o : String × Int) : List Cell := [Cell.str o.1, Cell.num o.2]

/-- buildArrayResult of Code.ts: non-array input degrades to the header
row alone; an array is copied, stably sorted newest-first by parsed
date, and prefixed with the header row.  The JavaScript engine sort is
stable with a consistent comparator, which mergeSort models exactly. -/
def buildArrayResult (getTime : String → Int) (data : Option (List (String × Int))) :
    List (List Cell) :=
  match data with
  | none => [HEADER_ROW]
  | some l => HEADER_ROW :: (l.mergeSort (dateDesc getTime)).map obsRow

/-- The three rows DSIQ appends for anonymous users when the table hits
the free-tier observation cap. -/
def freeTierFooter : List (List Cell) :=
  [[Cell.str "", Cell.str ""],
   [Cell.str "âš ï¸ Free tier limited to 100 most recent observations", Cell.str ""],
   [Cell.str "Upgrade for full access: datasetiq.com/pricing", Cell.str ""]]

/-- DSIQ of the newer variant (lines 695-719 of Code.ts): table-mode
fetch, grid construction, and the free-tier footer appended when no
credential is stored and at least 100 observations came back. -/
def DSIQ (env : JsEnv) (key : Option String) (seriesId : Option String)
    (frequency : Option String) (startDate : Option String)
    (responses : Nat → HttpResponse) : Except String (List (List Cell)) :=
  match normalizeSeriesId env seriesId with
  | Except.error e => Except.error e
  | Except.ok series =>
    let freq := normalizeOptionalString env frequency
    let start := normalizeDateInput startDate
    let out := fetchSeries env key series
      { mode := "table", freq := freq, start := start } responses
    match out.errorMessage with
    | some m => Except.error m
    | none =>
      let data := (out.response.bind (fun r => r.data)).getD []
      let result := buildArrayResult env.getTimeMs (some data)
      if key = none ∧ 100 ≤ data.length then
        Except.ok (result ++ freeTierFooter)
      else
        Except.ok result

/-- DSIQ_LATEST of Code.ts. -/
def DSIQ_LATEST (env : JsEnv) (key : Option String) (seriesId : Option String)
    (responses : Nat → HttpResponse) : Except String Int :=
  handleScalar env key seriesId { mode := "latest" } responses

/-- DSIQ_VALUE of Code.ts: the date is required. -/
def DSIQ_VALUE (env : JsEnv) (key : Option String) (seriesId : Option String)
    (date : Option String) (responses : Nat → HttpResponse) : Except String Int :=
  match normalizeDateInput date with
  | none => Except.error "Date is required for DSIQ_VALUE."
  | some normalizedDate =>
    handleScalar env key seriesId { mode := "value", date := some normalizedDate } responses

/-- DSIQ_YOY of Code.ts. -/
def DSIQ_YOY (env : JsEnv) (key : Option String) (seriesId : Option String)
    (responses : Nat → HttpResponse) : Except String Int :=
  handleScalar env key seriesId { mode := "yoy" } responses

/-- Parsed JSON body of the older variant (interface SeriesResponse of
lines 23-28 of Code.ts): observations already in pair-list form. -/
structure OldSeriesBody where
  meta : Option Dataset := none
  data : Option (List (String × Int)) := none
  scalar : Option Int := none
  error : Option ProviderError := none
deriving DecidableEq, Repr

/-- Success path of the older fetchSeries (line 428 of Code.ts): the
parsed body is returned unchanged, with no reshaping step. -/
def oldNormalizeResponse (body : OldSeriesBody) : OldSeriesBody := body

/-! ### Shared helper lemmas and a concrete host environment for witnesses -/

/-- Concrete host environment for evaluating the embedding on closed
inputs: JSON never parses, Number recognizes only the string 2, dates
never parse, the clock reads zero, encoding is the identity. -/
def testEnv : JsEnv where
  jsonParse := fun _ => none
  parseNumber := fun s => if s = "2" then some (2 : Int) else none
  parseDateMs := fun _ => none
  nowMs := 0
  encodeURIComponent := fun s => s
  getTimeMs := fun _ => 0
  trim := fun s => s

/-- On the success path outside the metadata branch, the normalized data
is the object-list reshaped into pair-list form, whatever the mode. -/
theorem transformResponse_data_eq (mode : String) (body : SeriesBody) (l : List Obs)
    (hmeta : ¬ (mode = "meta" ∧ body.dataset.isSome)) (hdata : body.data = some l) :
    (transformResponse mode body).data = some (l.map (fun o => (o.date, o.value))) := by
  unfold transformResponse
  rw [if_neg hmeta, hdata]

/-- A transient status is never in the 2xx success window. -/
theorem isRetryable_not_isSuccess (status : Nat) (body : SeriesBody)
    (h : isRetryable status) : ¬ isSuccess status body := by
  rcases h with h | h <;> rintro ⟨h1, h2, -⟩ <;> omega

/-- Unfolding of the fetch loop at its entry point: attempt 0 with two
iterations of budget. -/
theorem fetchGo_start (env : JsEnv) (mode : String) (responses : Nat → HttpResponse) :
    fetchGo env mode responses 0 2 =
      (if isSuccess (responses 0).status (parseJson env (responses 0).bodyText) then
         { response := some (transformResponse mode (parseJson env (responses 0).bodyText)),
           calls := 1 }
       else if 0 = 0 ∧ isRetryable (responses 0).status then
         ({ fetchGo env mode responses 1 1 with
            calls := (fetchGo env mode responses 1 1).calls + 1,
            sleeps := computeRetryAfter env (recordOf (normalizeHeaders (responses 0).headers)) 0
              :: (fetchGo env mode responses 1 1).sleeps } : FetchOutcome)
       else
         { errorMessage := some (mapError
             ((parseJson env (responses 0).bodyText).error.bind (fun e => e.code))
             (responses 0).status
             ((parseJson env (responses 0).bodyText).error.bind (fun e => e.message))),
           calls := 1 }) := rfl

/-- Unfolding of the fetch loop on the retry iteration: at attempt 1 the
retry branch is unreachable, so the iteration either succeeds or
terminates with the translated error. -/
theorem fetchGo_retry (env : JsEnv) (mode : String) (responses : Nat → HttpResponse) :
    fetchGo env mode responses 1 1 =
      (if isSuccess (responses 1).status (parseJson env (responses 1).bodyText) then
         { response := some (transformResponse mode (parseJson env (responses 1).bodyText)),
           calls := 1 }
       else
         { errorMessage := some (mapError
             ((parseJson env (responses 1).bodyText).error.bind (fun e => e.code))
             (responses 1).status
             ((parseJson env (responses 1).bodyText).error.bind (fun e => e.message))),
           calls := 1 }) := rfl

/-! ### Claim theorems -/

/-- Claim C1: a fetch issues a second outbound call exactly when the
first response is transient (429 or at least 500, hence never a
success), never issues a third call, and a second transient failure
terminates with the translated error message of the second response
instead of retrying. -/
theorem fetchSeries_single_retry (env : JsEnv) (key : Option String) (sid : String)
    (opts : FetchOptions) (responses : Nat → HttpResponse) :
    (fetchSeries env key sid opts responses).calls ≤ 2
    ∧ ((fetchSeries env key sid opts responses).calls = 2 ↔
        isRetryable (responses 0).status
          ∧ ¬ isSuccess (responses 0).status (parseJson env (responses 0).bodyText))
    ∧ (isRetryable (responses 0).status →
        ¬ isSuccess (responses 0).status (parseJson env (responses 0).bodyText))
    ∧ (isRetryable (responses 0).status →
        ¬ isSuccess (responses 1).status (parseJson env (responses 1).bodyText) →
        (fetchSeries env key sid opts responses).response = none
          ∧ (fetchSeries env key sid opts responses).errorMessage =
              some (mapError
                ((parseJson env (responses 1).bodyText).error.bind (fun e => e.code))
                (responses 1).status
                ((parseJson env (responses 1).bodyText).error.bind (fun e => e.message)))) := by
  have hcalls : (fetchSeries env key sid opts responses).calls =
      (fetchGo env opts.mode responses 0 2).calls := rfl
  have hresp : (fetchSeries env key sid opts responses).response =
      (fetchGo env opts.mode responses 0 2).response := rfl
  have herrm : (fetchSeries env key sid opts responses).errorMessage =
      (fetchGo env opts.mode responses 0 2).errorMessage := rfl
  by_cases hs0 : isSuccess (responses 0).status (parseJson env (responses 0).bodyText)
  · have hgo : fetchGo env opts.mode responses 0 2 =
        { response := some (transformResponse opts.mode (parseJson env (responses 0).bodyText)),
          calls := 1 } := by
      rw [fetchGo_start, if_pos hs0]
    have hc : (fetchSeries env key sid opts responses).calls = 1 := by rw [hcalls, hgo]
    refine ⟨by omega, ?_, fun hr => isRetryable_not_isSuccess _ _ hr, ?_⟩
    · rw [hc]
      exact ⟨fun h => absurd h (by omega), fun h => absurd hs0 h.2⟩
    · intro hr _
      exact absurd hs0 (isRetryable_not_isSuccess _ _ hr)
  · by_cases hr0 : isRetryable (responses 0).status
    · by_cases hs1 : isSuccess (responses 1).status (parseJson env (responses 1).bodyText)
      · have hgo1 : fetchGo env opts.mode responses 1 1 =
            { response := some (transformResponse opts.mode (parseJson env (responses 1).bodyText)),
              calls := 1 } := by
          rw [fetchGo_retry, if_pos hs1]
        have hgo : fetchGo env opts.mode responses 0 2 =
            { response := some (transformResponse opts.mode (parseJson env (responses 1).bodyText)),
              calls := 2,
              sleeps := [computeRetryAfter env
                (recordOf (normalizeHeaders (responses 0).headers)) 0] } := by
          rw [fetchGo_start, if_neg hs0,
            if_pos (show (0 : Nat) = 0 ∧ isRetryable (responses 0).status from ⟨rfl, hr0⟩), hgo1]
        have hc : (fetchSeries env key sid opts responses).calls = 2 := by rw [hcalls, hgo]
        refine ⟨by omega, ?_, fun hr => isRetryable_not_isSuccess _ _ hr,
          fun _ hns1 => absurd hs1 hns1⟩
        rw [hc]
        exact ⟨fun _ => ⟨hr0, hs0⟩, fun _ => rfl⟩
      · have hgo1 : fetchGo env opts.mode responses 1 1 =
            { errorMessage := some (mapError
                ((parseJson env (responses 1).bodyText).error.bind (fun e => e.code))
                (responses 1).status
                ((parseJson env (responses 1).bodyText).error.bind (fun e => e.message))),
              calls := 1 } := by
          rw [fetchGo_retry, if_neg hs1]
        have hgo : fetchGo env opts.mode responses 0 2 =
            { errorMessage := some (mapError
                ((parseJson env (responses 1).bodyText).error.bind (fun e => e.code))
                (responses 1).status
                ((parseJson env (responses 1).bodyText).error.bind (fun e => e.message))),
              calls := 2,
              sleeps := [computeRetryAfter env
                (recordOf (normalizeHeaders (responses 0).headers)) 0] } := by
          rw [fetchGo_start, if_neg hs0,
            if_pos (show (0 : Nat) = 0 ∧ isRetryable (responses 0).status from ⟨rfl, hr0⟩), hgo1]
        have hc : (fetchSeries env key sid opts responses).calls = 2 := by rw [hcalls, hgo]
        refine ⟨by omega, ?_, fun hr => isRetryable_not_isSuccess _ _ hr, ?_⟩
        · rw [hc]
          exact ⟨fun _ => ⟨hr0, hs0⟩, fun _ => rfl⟩
        · intro _ _
          constructor
          · rw [hresp, hgo]
          · rw [herrm, hgo]
    · have hgo : fetchGo env opts.mode responses 0 2 =
          { errorMessage := some (mapError
              ((parseJson env (responses 0).bodyText).error.bind (fun e => e.code))
              (responses 0).status
              ((parseJson env (responses 0).bodyText).error.bind (fun e => e.message))),
            calls := 1 } := by
        rw [fetchGo_start, if_neg hs0,
          if_neg (show ¬ ((0 : Nat) = 0 ∧ isRetryable (responses 0).status)
            from fun h => hr0 h.2)]
      have hc : (fetchSeries env key sid opts responses).calls = 1 := by rw [hcalls, hgo]
      refine ⟨by omega, ?_, fun hr => isRetryable_not_isSuccess _ _ hr, ?_⟩
      · rw [hc]
        exact ⟨fun h => absurd h (by omega), fun h => absurd h.1 hr0⟩
      · intro hr _
        exact absurd hr hr0

/-- Witness for claim C1: a 500 followed by a 503 makes exactly two
calls and ends with the translated server error. -/
theorem fetchSeries_single_retry_witness :
    (fetchSeries testEnv none "GDP" { mode := "latest" }
        (fun n => if n = 0 then ⟨500, "", []⟩ else ⟨503, "", []⟩)).calls = 2
    ∧ (fetchSeries testEnv none "GDP" { mode := "latest" }
        (fun n => if n = 0 then ⟨500, "", []⟩ else ⟨503, "", []⟩)).errorMessage =
        some "Server unavailable. Please retry." := by
  have h := fetchSeries_single_retry testEnv none "GDP" { mode := "latest" }
    (fun n => if n = 0 then ⟨500, "", []⟩ else ⟨503, "", []⟩)
  have hr : isRetryable ((fun n : Nat =>
      if n = 0 then (⟨500, "", []⟩ : HttpResponse) else ⟨503, "", []⟩) 0).status := by
    right
    decide
  have hns1 : ¬ isSuccess ((fun n : Nat =>
      if n = 0 then (⟨500, "", []⟩ : HttpResponse) else ⟨503, "", []⟩) 1).status
      (parseJson testEnv ((fun n : Nat =>
        if n = 0 then (⟨500, "", []⟩ : HttpResponse) else ⟨503, "", []⟩) 1).bodyText) := by
    rintro ⟨h1, h2, -⟩
    revert h2
    decide
  refine ⟨h.2.1.mpr ⟨hr, isRetryable_not_isSuccess _ _ hr⟩, ?_⟩
  have h4 := (h.2.2.2 hr hns1).2
  simpa using h4

/-- Claim C3: for a 2xx body with a non-empty observation list, the
normalizer sets the scalar for mode latest to the value of the last
observation as returned (no re-sorting), and the scalar for mode value
to the value of the observation at index 0. -/
theorem transformResponse_scalar_modes (body : SeriesBody) (l : List Obs)
    (hdata : body.data = some l) (hne : l ≠ []) :
    (transformResponse "latest" body).scalar = some ((l.getLast hne).value)
    ∧ (transformResponse "value" body).scalar = some ((l.head hne).value) := by
  constructor
  · unfold transformResponse
    rw [if_neg (by simp), hdata]
    simp [List.getLast?_eq_getLast l hne]
  · unfold transformResponse
    rw [if_neg (by simp), hdata]
    simp [List.head?_eq_head hne]

/-- Witness for claim C3 at a concrete two-observation body. -/
theorem transformResponse_scalar_modes_witness :
    (transformResponse "latest"
        { data := some [⟨"2023-01-01", 1⟩, ⟨"2024-01-01", 7⟩] }).scalar = some 7
    ∧ (transformResponse "value"
        { data := some [⟨"2023-01-01", 1⟩, ⟨"2024-01-01", 7⟩] }).scalar = some 1 := by
  have h := transformResponse_scalar_modes
    { data := some [⟨"2023-01-01", 1⟩, ⟨"2024-01-01", 7⟩] }
    [⟨"2023-01-01", 1⟩, ⟨"2024-01-01", 7⟩] rfl (by simp)
  exact ⟨h.1, h.2⟩

/-- Claim C2: buildArrayResult starts with the fixed header row and
continues with the input observations reordered into a non-increasing
sequence of parsed dates, stably: observations with equal parsed dates
keep their input order (their filtered subsequences agree).  Non-array
input yields the header row alone. -/
theorem buildArrayResult_sorted (getTime : String → Int) :
    buildArrayResult getTime none = [HEADER_ROW]
    ∧ ∀ l : List (String × Int),
        ∃ s : List (String × Int),
          buildArrayResult getTime (some l) = HEADER_ROW :: s.map obsRow
            ∧ s.Perm l
            ∧ s.Pairwise (fun a b => getTime b.1 ≤ getTime a.1)
            ∧ ∀ k : Int, s.filter (fun o => getTime o.1 == k) =
                l.filter (fun o => getTime o.1 == k) := by
  have htrans : ∀ a b c, dateDesc getTime a b → dateDesc getTime b c → dateDesc getTime a c := by
    intro a b c hab hbc
    simp only [dateDesc, decide_eq_true_eq] at hab hbc ⊢
    omega
  have htotal : ∀ a b, dateDesc getTime a b || dateDesc getTime b a := by
    intro a b
    simp only [dateDesc, Bool.or_eq_true, decide_eq_true_eq]
    exact Int.le_total (getTime b.1) (getTime a.1)
  refine ⟨rfl, fun l => ⟨l.mergeSort (dateDesc getTime), rfl, List.mergeSort_perm l _, ?_, ?_⟩⟩
  · have h := List.sorted_mergeSort htrans htotal l
    exact h.imp (fun hab => by simpa [dateDesc] using hab)
  · intro k
    have hall : ∀ x ∈ l.filter (fun o => getTime o.1 == k), (getTime x.1 == k) = true :=
      fun _ hx => (List.mem_filter.mp hx).2
    have hpw : (l.filter (fun o => getTime o.1 == k)).Pairwise
        (fun a b => dateDesc getTime a b) := by
      refine List.pairwise_of_forall_mem_list ?_
      intro a ha b hb
      have ha2 : getTime a.1 = k := by simpa using (List.mem_filter.mp ha).2
      have hb2 : getTime b.1 = k := by simpa using (List.mem_filter.mp hb).2
      simp [dateDesc, ha2, hb2]
    have hsub : List.Sublist (l.filter (fun o => getTime o.1 == k))
        (l.mergeSort (dateDesc getTime)) :=
      List.sublist_mergeSort htrans htotal hpw (List.filter_sublist l)
    have hsub2 : List.Sublist (l.filter (fun o => getTime o.1 == k))
        ((l.mergeSort (dateDesc getTime)).filter (fun o => getTime o.1 == k)) := by
      have h1 := hsub.filter (fun o => getTime o.1 == k)
      rwa [List.filter_eq_self.mpr hall] at h1
    have hlen : ((l.mergeSort (dateDesc getTime)).filter (fun o => getTime o.1 == k)).length =
        (l.filter (fun o => getTime o.1 == k)).length :=
      ((List.mergeSort_perm l _).filter (fun o => getTime o.1 == k)).length_eq
    exact (hsub2.eq_of_length hlen.symm).symm

/-- Claim C4: computeRetryAfter returns 2000 for a retry-after header
reading 2; returns the exponential fallback 500 times 2 to the attempt
when the header is absent or unparseable (500 on the first retry); and
for an HTTP-date header returns the positive difference from now,
falling back when that difference is non-positive. -/
theorem computeRetryAfter_spec (env : JsEnv) (headers : String → Option String) (attempt : Nat) :
    (env.parseNumber "2" = some 2 → headers "retry-after" = some "2" →
      computeRetryAfter env headers attempt = 2000)
    ∧ (headers "retry-after" = none ∨ headers "retry-after" = some "" →
      computeRetryAfter env headers attempt = 500 * 2 ^ attempt)
    ∧ (∀ s, headers "retry-after" = some s → s ≠ "" →
        env.parseNumber s = none → env.parseDateMs s = none →
        computeRetryAfter env headers attempt = 500 * 2 ^ attempt)
    ∧ (∀ s t, headers "retry-after" = some s → s ≠ "" →
        env.parseNumber s = none → env.parseDateMs s = some t →
        computeRetryAfter env headers attempt =
          if 0 < t - env.nowMs then t - env.nowMs else 500 * 2 ^ attempt)
    ∧ (attempt = 0 → (500 : Int) * 2 ^ attempt = 500) := by
  refine ⟨?_, ?_, ?_, ?_, ?_⟩
  · intro hn hh
    simp [computeRetryAfter, hh, hn]
  · rintro (hh | hh) <;> simp [computeRetryAfter, hh]
  · intro s hh hne hn hd
    simp [computeRetryAfter, hh, hne, hn, hd]
  · intro s t hh hne hn hd
    simp [computeRetryAfter, hh, hne, hn, hd]
  · intro h
    subst h
    norm_num

/-- Witness for claim C4: delay 2000 for header 2, fallback 500 on the
first retry for an absent and for an unparseable header. -/
theorem computeRetryAfter_spec_witness :
    computeRetryAfter testEnv (fun k => if k = "retry-after" then some "2" else none) 0 = 2000
    ∧ computeRetryAfter testEnv (fun _ => none) 0 = 500
    ∧ computeRetryAfter testEnv (fun k => if k = "retry-after" then some "x" else none) 0 = 500 := by
  refine ⟨(computeRetryAfter_spec testEnv _ 0).1 rfl rfl, ?_, ?_⟩
  · have h := (computeRetryAfter_spec testEnv (fun _ => none) 0).2.1 (Or.inl rfl)
    simpa using h
  · have h := (computeRetryAfter_spec testEnv
      (fun k => if k = "retry-after" then some "x" else none) 0).2.2.1 "x" rfl
      (by decide) (by decide) rfl
    simpa using h

/-- Claim C5: the six code-specific messages of mapError win over the
status-derived messages for every HTTP status and fallback; in
particular REVOKED_KEY always yields the fixed revoked-key message;
without a matching code, status 429 and status at least 500 yield the
fixed rate-limit and server messages, and otherwise the provider
fallback is used, defaulting to a generic unable-to-fetch message. -/
theorem mapError_code_priority (status : Nat) (fallback : Option String) :
    mapError (some ErrorCode.REVOKED_KEY) status fallback =
      "API Key revoked. Get a new key at datasetiq.com/dashboard/api-keys"
    ∧ mapError (some ErrorCode.NO_KEY) status fallback =
      "Please open DataSetIQ sidebar to connect."
    ∧ mapError (some ErrorCode.INVALID_KEY) status fallback =
      "Invalid API Key. Reconnect at datasetiq.com/dashboard/api-keys"
    ∧ mapError (some ErrorCode.FREE_LIMIT) status fallback =
      "Free plan limit reached. Upgrade at datasetiq.com/pricing"
    ∧ mapError (some ErrorCode.QUOTA_EXCEEDED) status fallback =
      "Daily Quota Exceeded. Upgrade at datasetiq.com/pricing"
    ∧ mapError (some ErrorCode.PLAN_REQUIRED) status fallback =
      "Upgrade required. Visit datasetiq.com/pricing"
    ∧ (∀ code, code = none ∨ code = some ErrorCode.UNKNOWN →
        (status = 429 → mapError code status fallback = "Rate limited. Please retry shortly.")
        ∧ (500 ≤ status → mapError code status fallback = "Server unavailable. Please retry.")
        ∧ (status ≠ 429 → status < 500 →
            mapError code status fallback = fallback.getD "Unable to fetch data.")) := by
  refine ⟨by simp [mapError], by simp [mapError], by simp [mapError], by simp [mapError],
    by simp [mapError], by simp [mapError], ?_⟩
  intro code hc
  refine ⟨?_, ?_, ?_⟩
  · intro h429
    subst h429
    rcases hc with rfl | rfl <;> simp [mapError]
  · intro h500
    have hne : status ≠ 429 := by omega
    rcases hc with rfl | rfl <;> simp [mapError, hne, h500]
  · intro hne hlt
    have hlt2 : ¬ 500 ≤ status := by omega
    rcases hc with rfl | rfl <;> simp [mapError, hne, hlt2]

/-- Witness for claim C5: revoked key beats a 500 status; other branches
at concrete statuses. -/
theorem mapError_code_priority_witness :
    mapError (some ErrorCode.REVOKED_KEY) 500 (some "provider text") =
      "API Key revoked. Get a new key at datasetiq.com/dashboard/api-keys"
    ∧ mapError none 404 none = "Unable to fetch data."
    ∧ mapError none 429 none = "Rate limited. Please retry shortly."
    ∧ mapError none 503 none = "Server unavailable. Please retry." := by
  refine ⟨(mapError_code_priority 500 (some "provider text")).1, ?_, ?_, ?_⟩
  · exact ((mapError_code_priority 404 none).2.2.2.2.2.2 none (Or.inl rfl)).2.2
      (by omega) (by omega)
  · exact ((mapError_code_priority 429 none).2.2.2.2.2.2 none (Or.inl rfl)).1 rfl
  · exact ((mapError_code_priority 503 none).2.2.2.2.2.2 none (Or.inl rfl)).2.1 (by omega)

/-- Claim C6: the older variant returns pair-list observations
unchanged, and the newer variant translates the same logical
observations from object-list to pair-list form exactly, so both
normalizers produce the same internal observation sequence. -/
theorem normalizers_agree_on_observations (mode : String) (l : List (String × Int))
    (sid st msg : Option String) :
    (oldNormalizeResponse { data := some l }).data = some l
    ∧ (transformResponse mode
        { data := some (l.map (fun p => { date := p.1, value := p.2 })),
          seriesId := sid, status := st, message := msg }).data = some l := by
  refine ⟨rfl, ?_⟩
  rw [transformResponse_data_eq mode _ (l.map (fun p => { date := p.1, value := p.2 }))
    (by simp) rfl]
  rw [List.map_map]
  have hcomp : ((fun o : Obs => (o.date, o.value)) ∘
      fun p : String × Int => ({ date := p.1, value := p.2 } : Obs)) = id := rfl
  rw [hcomp, List.map_id]

/-- A non-empty trimmed id normalizes to itself. -/
theorem normalizeSeriesId_ok (env : JsEnv) (sid0 : String)
    (hsid : (env.trim sid0).length ≠ 0) :
    normalizeSeriesId env (some sid0) = Except.ok (env.trim sid0) := by
  simp only [normalizeSeriesId, normalizeOptionalString]
  rw [if_pos hsid]

/-- The normalizer leaves the scalar empty on the empty object produced
from a malformed body. -/
theorem transformResponse_emptyBody (mode : String) :
    transformResponse mode emptyBody = ({} : SeriesResult) := by
  unfold transformResponse
  rw [if_neg (fun h => by simpa [emptyBody] using h.2)]
  rfl

/-- When the first response is a success whose normalized result carries
no scalar, handleScalar raises the fixed value-not-available message. -/
theorem handleScalar_scalar_none (env : JsEnv) (key : Option String) (sid0 : String)
    (opts : FetchOptions) (responses : Nat → HttpResponse)
    (hsid : (env.trim sid0).length ≠ 0)
    (hs0 : isSuccess (responses 0).status (parseJson env (responses 0).bodyText))
    (hsc : (transformResponse opts.mode (parseJson env (responses 0).bodyText)).scalar = none) :
    handleScalar env key (some sid0) opts responses = Except.error "Value not available." := by
  have hgo : fetchGo env opts.mode responses 0 2 =
      { response := some (transformResponse opts.mode (parseJson env (responses 0).bodyText)),
        calls := 1 } := by
    rw [fetchGo_start, if_pos hs0]
  have herrm : (fetchSeries env key (env.trim sid0) opts responses).errorMessage =
      (fetchGo env opts.mode responses 0 2).errorMessage := rfl
  have hrespb : (fetchSeries env key (env.trim sid0) opts responses).response =
      (fetchGo env opts.mode responses 0 2).response := rfl
  simp only [handleScalar, normalizeSeriesId_ok env sid0 hsid]
  rw [herrm, hrespb, hgo]
  simp [hsc]

/-- A limit parameter never coincides with a start parameter: the key
prefixes differ at the first character. -/
theorem limit_ne_start_param (x y : String) : ("limit=" ++ x) ≠ ("start=" ++ y) := by
  intro h
  have h2 := congrArg (fun s => s.data.head?) h
  simp only [String.data_append] at h2
  simp only [List.cons_append, List.head?_cons] at h2
  exact absurd (Option.some.inj h2) (by decide)

/-- A limit parameter never coincides with an end parameter. -/
theorem limit_ne_end_param (x y : String) : ("limit=" ++ x) ≠ ("end=" ++ y) := by
  intro h
  have h2 := congrArg (fun s => s.data.head?) h
  simp only [String.data_append] at h2
  simp only [List.cons_append, List.head?_cons] at h2
  exact absurd (Option.some.inj h2) (by decide)

/-- A string different from every start, end and limit parameter form is
not among the data-endpoint query parameters. -/
theorem not_mem_series_params (enc : String → String) (opts : FetchOptions)
    (z w : String)
    (hs : ∀ y, z ≠ "start=" ++ y) (he : ∀ y, z ≠ "end=" ++ y)
    (hw : z ≠ "limit=" ++ w) :
    z ∉ (match opts.start with
         | some s => ["start=" ++ enc s]
         | none => ([] : List String)) ++
        (match opts.date with
         | some d => ["end=" ++ enc d]
         | none => []) ++ ["limit=" ++ w] := by
  intro hmem
  rcases List.mem_append.mp hmem with hmem1 | hmem2
  · rcases List.mem_append.mp hmem1 with ha | hb
    · rcases hstart : opts.start with _ | s
      · rw [hstart] at ha
        exact absurd ha (List.not_mem_nil z)
      · rw [hstart] at ha
        exact hs (enc s) (List.mem_singleton.mp ha)
    · rcases hdate : opts.date with _ | d
      · rw [hdate] at hb
        exact absurd hb (List.not_mem_nil z)
      · rw [hdate] at hb
        exact he (enc d) (List.mem_singleton.mp hb)
  · exact hw (List.mem_singleton.mp hmem2)

/-- Claim C8: for every non-metadata-mode request, the params array ends
with the fixed limit value 1000 when a credential is stored and 100
otherwise (and contains no other limit value), and the request carries
an Authorization Bearer header exactly when a credential is stored.
fetchSeries records exactly this built request. -/
theorem buildSeriesRequest_limit_auth (env : JsEnv) (enc : String → String)
    (key : Option String) (seriesId : String) (opts : FetchOptions)
    (responses : Nat → HttpResponse)
    (hmode : opts.mode ≠ "meta") :
    ((buildSeriesRequest enc key seriesId opts).params.getLast? =
      some ("limit=" ++ (if key.isSome then "1000" else "100")))
    ∧ ("limit=1000" ∈ (buildSeriesRequest enc key seriesId opts).params ↔ key.isSome)
    ∧ ("limit=100" ∈ (buildSeriesRequest enc key seriesId opts).params ↔ key = none)
    ∧ (∀ k, key = some k →
        (buildSeriesRequest enc key seriesId opts).headers =
          [("Authorization", "Bearer " ++ k)])
    ∧ (key = none → (buildSeriesRequest enc key seriesId opts).headers = [])
    ∧ (fetchSeries env key seriesId opts responses).request =
        some (buildSeriesRequest env.encodeURIComponent key seriesId opts) := by
  have hp : (buildSeriesRequest enc key seriesId opts).params =
      (match opts.start with
       | some s => ["start=" ++ enc s]
       | none => ([] : List String)) ++
      (match opts.date with
       | some d => ["end=" ++ enc d]
       | none => []) ++
      ["limit=" ++ (if key.isSome then "1000" else "100")] := by
    unfold buildSeriesRequest
    rw [if_neg hmode]
  have hhsome : ∀ k, key = some k →
      (buildSeriesRequest enc key seriesId opts).headers =
        [("Authorization", "Bearer " ++ k)] := by
    intro k hk
    subst hk
    unfold buildSeriesRequest
    rw [if_neg hmode]
  have hhnone : key = none →
      (buildSeriesRequest enc key seriesId opts).headers = [] := by
    intro hk
    subst hk
    unfold buildSeriesRequest
    rw [if_neg hmode]
  have hlast : (buildSeriesRequest enc key seriesId opts).params.getLast? =
      some ("limit=" ++ (if key.isSome then "1000" else "100")) := by
    rw [hp]
    exact List.getLast?_concat _
  rcases key with _ | k
  · have hp2 : (buildSeriesRequest enc none seriesId opts).params =
        (match opts.start with
         | some s => ["start=" ++ enc s]
         | none => ([] : List String)) ++
        (match opts.date with
         | some d => ["end=" ++ enc d]
         | none => []) ++ ["limit=100"] := hp
    refine ⟨hlast, ?_, ?_, hhsome, fun _ => hhnone rfl, rfl⟩
    · rw [hp2]
      refine iff_of_false ?_ (by simp)
      exact not_mem_series_params enc opts "limit=1000" "100"
        (fun y => limit_ne_start_param "1000" y)
        (fun y => limit_ne_end_param "1000" y)
        (by decide)
    · rw [hp2]
      refine iff_of_true ?_ rfl
      refine List.mem_append.mpr (Or.inr ?_)
      exact List.mem_singleton.mpr rfl
  · have hp2 : (buildSeriesRequest enc (some k) seriesId opts).params =
        (match opts.start with
         | some s => ["start=" ++ enc s]
         | none => ([] : List String)) ++
        (match opts.date with
         | some d => ["end=" ++ enc d]
         | none => []) ++ ["limit=1000"] := hp
    refine ⟨hlast, ?_, ?_, hhsome, fun hk => Option.noConfusion hk, rfl⟩
    · rw [hp2]
      refine iff_of_true ?_ rfl
      refine List.mem_append.mpr (Or.inr ?_)
      exact List.mem_singleton.mpr rfl
    · rw [hp2]
      refine iff_of_false ?_ (by simp)
      exact not_mem_series_params enc opts "limit=100" "1000"
        (fun y => limit_ne_start_param "100" y)
        (fun y => limit_ne_end_param "100" y)
        (by decide)

/-- Witness for claim C8: with a stored credential the data request ends
with limit 1000 and carries the bearer header; without one it ends with
limit 100 and no header. -/
theorem buildSeriesRequest_limit_auth_witness :
    ("limit=1000" ∈ (buildSeriesRequest (fun s => s) (some "KEY") "GDP"
        { mode := "table" }).params
      ∧ (buildSeriesRequest (fun s => s) (some "KEY") "GDP" { mode := "table" }).headers =
          [("Authorization", "Bearer KEY")])
    ∧ ("limit=100" ∈ (buildSeriesRequest (fun s => s) none "GDP" { mode := "table" }).params
      ∧ (buildSeriesRequest (fun s => s) none "GDP" { mode := "table" }).headers = []) := by
  have h1 := buildSeriesRequest_limit_auth testEnv (fun s => s) (some "KEY") "GDP"
    { mode := "table" } (fun _ => ⟨200, "", []⟩) (by decide)
  have h2 := buildSeriesRequest_limit_auth testEnv (fun s => s) none "GDP"
    { mode := "table" } (fun _ => ⟨200, "", []⟩) (by decide)
  exact ⟨⟨h1.2.1.mpr rfl, h1.2.2.2.1 "KEY" rfl⟩, ⟨h2.2.2.1.mpr rfl, h2.2.2.2.2.1 rfl⟩⟩

/-- Claim C7: a malformed JSON body parses to the empty object instead
of raising, and a 2xx response with such a body makes a scalar-mode call
fail with the ordinary value-not-available message rather than a parse
exception. -/
theorem parseJson_malformed_degrades (env : JsEnv) (key : Option String) (sid0 : String)
    (opts : FetchOptions) (responses : Nat → HttpResponse)
    (hsid : (env.trim sid0).length ≠ 0)
    (hmode : opts.mode = "latest" ∨ opts.mode = "value" ∨ opts.mode = "yoy")
    (hjp : env.jsonParse (responses 0).bodyText = none)
    (hst : 200 ≤ (responses 0).status ∧ (responses 0).status < 300) :
    parseJson env (responses 0).bodyText = emptyBody
    ∧ handleScalar env key (some sid0) opts responses =
        Except.error "Value not available." := by
  have hp : parseJson env (responses 0).bodyText = emptyBody := by
    simp [parseJson, hjp]
  refine ⟨hp, ?_⟩
  have hs0 : isSuccess (responses 0).status (parseJson env (responses 0).bodyText) := by
    rw [hp]
    exact ⟨hst.1, hst.2, rfl⟩
  refine handleScalar_scalar_none env key sid0 opts responses hsid hs0 ?_
  rw [hp, transformResponse_emptyBody]

/-- Witness for claim C7: a 200 response whose body is not JSON makes
the latest-value call fail with the fixed message. -/
theorem parseJson_malformed_degrades_witness :
    parseJson testEnv "not json" = emptyBody
    ∧ handleScalar testEnv none (some "CPI") { mode := "latest" }
        (fun _ => ⟨200, "not json", []⟩) = Except.error "Value not available." := by
  have h := parseJson_malformed_degrades testEnv none "CPI" { mode := "latest" }
    (fun _ => ⟨200, "not json", []⟩) (by decide) (Or.inl rfl) rfl ⟨by decide, by decide⟩
  exact ⟨h.1, h.2⟩

/-- Claim C10: a successful scalar-mode fetch whose observation list is
empty and whose body carries no scalar leaves the normalized scalar
undefined, and the three scalar entry points raise the fixed
value-not-available error. -/
theorem scalar_entry_points_empty_observations (env : JsEnv) (key : Option String)
    (sid0 d : String) (responses : Nat → HttpResponse) (body : SeriesBody)
    (hsid : (env.trim sid0).length ≠ 0) (hd : d ≠ "")
    (hjp : env.jsonParse (responses 0).bodyText = some body)
    (hst : 200 ≤ (responses 0).status ∧ (responses 0).status < 300)
    (herr : body.error = none)
    (hdata : body.data = some ([] : List Obs))
    (hscal : body.scalar = none) :
    (∀ mode, (transformResponse mode body).scalar = none)
    ∧ DSIQ_LATEST env key (some sid0) responses = Except.error "Value not available."
    ∧ DSIQ_VALUE env key (some sid0) (some d) responses = Except.error "Value not available."
    ∧ DSIQ_YOY env key (some sid0) responses = Except.error "Value not available." := by
  have hp : parseJson env (responses 0).bodyText = body := by
    simp [parseJson, hjp]
  have hs0 : isSuccess (responses 0).status (parseJson env (responses 0).bodyText) := by
    rw [hp]
    exact ⟨hst.1, hst.2, herr⟩
  have hscalar : ∀ mode, (transformResponse mode body).scalar = none := by
    intro mode
    unfold transformResponse
    by_cases hm : mode = "meta" ∧ body.dataset.isSome
    · rw [if_pos hm]
    · rw [if_neg hm, hdata]
      simp
  refine ⟨hscalar, ?_, ?_, ?_⟩
  · exact handleScalar_scalar_none env key sid0 { mode := "latest" } responses hsid hs0
      (by rw [hp]; exact hscalar "latest")
  · have hdate : normalizeDateInput (some d) = some d := by
      simp [normalizeDateInput, hd]
    show (match normalizeDateInput (some d) with
      | none => Except.error "Date is required for DSIQ_VALUE."
      | some normalizedDate => handleScalar env key (some sid0)
          { mode := "value", date := some normalizedDate } responses) =
        Except.error "Value not available."
    rw [hdate]
    exact handleScalar_scalar_none env key sid0 { mode := "value", date := some d } responses
      hsid hs0 (by rw [hp]; exact hscalar "value")
  · exact handleScalar_scalar_none env key sid0 { mode := "yoy" } responses hsid hs0
      (by rw [hp]; exact hscalar "yoy")

/-- Witness for claim C10: a 200 response with an empty observation
list fails all three scalar entry points with the fixed message. -/
theorem scalar_entry_points_empty_observations_witness :
    DSIQ_LATEST (JsEnv.mk (fun _ => some { data := some [] }) (fun _ => none) (fun _ => none)
        0 (fun s => s) (fun _ => 0) (fun s => s)) none (some "CPI")
        (fun _ => ⟨200, "ok", []⟩) = Except.error "Value not available."
    ∧ DSIQ_VALUE (JsEnv.mk (fun _ => some { data := some [] }) (fun _ => none) (fun _ => none)
        0 (fun s => s) (fun _ => 0) (fun s => s)) none (some "CPI") (some "2024-01-01")
        (fun _ => ⟨200, "ok", []⟩) = Except.error "Value not available."
    ∧ DSIQ_YOY (JsEnv.mk (fun _ => some { data := some [] }) (fun _ => none) (fun _ => none)
        0 (fun s => s) (fun _ => 0) (fun s => s)) none (some "CPI")
        (fun _ => ⟨200, "ok", []⟩) = Except.error "Value not available." := by
  have h := scalar_entry_points_empty_observations
    (JsEnv.mk (fun _ => some { data := some [] }) (fun _ => none) (fun _ => none)
      0 (fun s => s) (fun _ => 0) (fun s => s)) none "CPI" "2024-01-01"
    (fun _ => ⟨200, "ok", []⟩) { data := some [] }
    (by decide) (by decide) rfl ⟨by decide, by decide⟩ rfl rfl rfl
  exact ⟨h.2.1, h.2.2.1, h.2.2.2⟩

/-- Claim C9: with no stored credential and a successful table-mode
fetch returning at least 100 observations, DSIQ returns the sorted grid
with a blank row, a free-tier notice and an upgrade link appended, so
the grid has three rows more than header plus observations. -/
theorem DSIQ_free_tier_footer (env : JsEnv) (sid0 : String) (freq startDate : Option String)
    (responses : Nat → HttpResponse) (body : SeriesBody) (l : List Obs)
    (hsid : (env.trim sid0).length ≠ 0)
    (hjp : env.jsonParse (responses 0).bodyText = some body)
    (hst : 200 ≤ (responses 0).status ∧ (responses 0).status < 300)
    (herr : body.error = none)
    (hdata : body.data = some l)
    (hlen : 100 ≤ l.length) :
    DSIQ env none (some sid0) freq startDate responses =
      Except.ok (buildArrayResult env.getTimeMs
        (some (l.map (fun o => (o.date, o.value)))) ++ freeTierFooter)
    ∧ ∀ rows, DSIQ env none (some sid0) freq startDate responses = Except.ok rows →
        rows.length = l.length + 4 := by
  have hp : parseJson env (responses 0).bodyText = body := by
    simp [parseJson, hjp]
  have hs0 : isSuccess (responses 0).status (parseJson env (responses 0).bodyText) := by
    rw [hp]
    exact ⟨hst.1, hst.2, herr⟩
  have hgo : fetchGo env "table" responses 0 2 =
      { response := some (transformResponse "table" (parseJson env (responses 0).bodyText)),
        calls := 1 } := by
    rw [fetchGo_start, if_pos hs0]
  have herrm : (fetchSeries env none (env.trim sid0)
      { mode := "table", freq := normalizeOptionalString env freq,
        start := normalizeDateInput startDate } responses).errorMessage =
      (fetchGo env "table" responses 0 2).errorMessage := rfl
  have hrespb : (fetchSeries env none (env.trim sid0)
      { mode := "table", freq := normalizeOptionalString env freq,
        start := normalizeDateInput startDate } responses).response =
      (fetchGo env "table" responses 0 2).response := rfl
  have htd : (transformResponse "table" body).data =
      some (l.map (fun o => (o.date, o.value))) := by
    refine transformResponse_data_eq "table" body l ?_ hdata
    rintro ⟨hmeta, -⟩
    exact absurd hmeta (by decide)
  have hmain : DSIQ env none (some sid0) freq startDate responses =
      Except.ok (buildArrayResult env.getTimeMs
        (some (l.map (fun o => (o.date, o.value)))) ++ freeTierFooter) := by
    simp only [DSIQ, normalizeSeriesId_ok env sid0 hsid]
    rw [herrm, hrespb, hgo, hp]
    have hdata2 : (((some (transformResponse "table" body)).bind (fun r => r.data)).getD []) =
        l.map (fun o => (o.date, o.value)) := by
      simp [htd]
    rw [hdata2]
    rw [if_pos (⟨trivial, by rw [List.length_map]; exact hlen⟩ :
      True ∧ 100 ≤ (l.map (fun o => (o.date, o.value))).length)]
  refine ⟨hmain, ?_⟩
  intro rows hr
  rw [hmain] at hr
  cases hr
  simp [buildArrayResult, freeTierFooter, List.length_mergeSort]

/-- Witness for claim C9: 100 anonymous observations produce the grid
plus the three footer rows. -/
theorem DSIQ_free_tier_footer_witness :
    DSIQ (JsEnv.mk
        (fun _ => some { data := some (List.replicate 100 (Obs.mk "2024-01-01" 1)) })
        (fun _ => none) (fun _ => none) 0 (fun s => s) (fun _ => 0) (fun s => s))
      none (some "CPI") none none (fun _ => ⟨200, "ok", []⟩) =
      Except.ok (buildArrayResult
        (JsEnv.mk
          (fun _ => some { data := some (List.replicate 100 (Obs.mk "2024-01-01" 1)) })
          (fun _ => none) (fun _ => none) 0 (fun s => s) (fun _ => 0) (fun s => s)).getTimeMs
        (some ((List.replicate 100 (Obs.mk "2024-01-01" 1)).map
          (fun o => (o.date, o.value)))) ++ freeTierFooter) := by
  have h := DSIQ_free_tier_footer
    (JsEnv.mk
      (fun _ => some { data := some (List.replicate 100 (Obs.mk "2024-01-01" 1)) })
      (fun _ => none) (fun _ => none) 0 (fun s => s) (fun _ => 0) (fun s => s))
    "CPI" none none (fun _ => ⟨200, "ok", []⟩)
    { data := some (List.replicate 100 (Obs.mk "2024-01-01" 1)) }
    (List.replicate 100 (Obs.mk "2024-01-01" 1))
    (by decide) rfl ⟨by decide, by decide⟩ rfl rfl (by simp)
  exact h.1

end DataSetIQ
